import Mathlib

/-!
Verification of the bosh-bootloader repository slice: the Azure resource-group
lister (vendor/github.com/genevieve/leftovers/azure/groups.go) and the
PrintEnv command (whose behaviour is pinned by commands/print_env_test.go).

Strings are modelled as Lean `String`; Go errors as the `Except String`
monad's error branch; a Go nil-pointer dereference (a panic) as `Option.none`
at the result of the whole call; interactive and logging side effects as
explicit traces carried in the result.
-/

/-- Boolean check that the first character list is an initial segment of the
second. -/
def charPrefixOf : List Char → List Char → Bool
  | [], _ => true
  | _ :: _, [] => false
  | a :: as, b :: bs => a == b && charPrefixOf as bs

/-- Boolean check that the first character list occurs contiguously inside
the second. -/
def charInfixOf (sub : List Char) : List Char → Bool
  | [] => sub.isEmpty
  | c :: tl => charPrefixOf sub (c :: tl) || charInfixOf sub tl

/-- Substring containment, modelling Go strings.Contains(s, sub):
true iff sub occurs contiguously inside s (the empty string occurs in
everything). -/
def strContains (s sub : String) : Bool :=
  charInfixOf sub.toList s.toList

/-- startsWith over the character list, used to state which export lines a
logged output does or does not contain. -/
def strStartsWith (s p : String) : Bool :=
  charPrefixOf p.toList s.toList

/-- Modelled from the spec: the Deletable handle built by NewGroup (the file
defining the azure Group type is not part of the visible source). It exposes
a display name and a fixed type tag. -/
structure Deletable where
  name : String
  dtype : String
deriving Repr, DecidableEq

/-- Modelled from the spec: NewGroup wraps a provider-assigned group name
into a Deletable whose Type() is the fixed resource-kind tag. -/
def NewGroup (name : String) : Deletable :=
  { name := name, dtype := "Resource Group" }

/-- resources.GroupListResult: a successful provider response whose Value
field is a nil-able pointer to the collection of group names. -/
structure GroupListResult where
  value : Option (List String)

/-- The azure Groups lister: a listing client (query string and optional
page cap, as in groupsClient.List) and the confirmation hook
logger.PromptWithDetails. -/
structure Groups where
  client : String → Option Int → Except String GroupListResult
  promptWithDetails : String → String → Bool

/-- The loop body of Groups.List: walk the provider-returned names in order;
skip an item whose name does not contain the filter; otherwise ask the
confirmation hook with (type, name) and keep the item only on true. Returns
the surviving Deletables and the trace of (type, name) prompt invocations. -/
def groupsLoop (prompt : String → String → Bool) (filter : String) :
    List String → List Deletable × List (String × String)
  | [] => ([], [])
  | g :: gs =>
    let r := NewGroup g
    if !(strContains r.name filter) then
      groupsLoop prompt filter gs
    else
      let proceed := prompt r.dtype r.name
      let rest := groupsLoop prompt filter gs
      if !proceed then (rest.1, (r.dtype, r.name) :: rest.2)
      else (r :: rest.1, (r.dtype, r.name) :: rest.2)

/-- Groups.List from groups.go: call the client with the empty query and no
page cap; on error return the wrapped ListingError; on success dereference
the Value pointer (a nil Value is a Go panic, modelled as `none`) and run the
filter/confirm loop. The second component is the trace of prompt calls. -/
def Groups.list (g : Groups) (filter : String) :
    Option (Except String (List Deletable) × List (String × String)) :=
  match g.client "" none with
  | .error err => some (.error ("Listing Resource Groups: " ++ err), [])
  | .ok groups =>
    match groups.value with
    | none => none
    | some gs =>
      let t := groupsLoop g.promptWithDetails filter gs
      some (.ok t.1, t.2)

/-- Closed form of the loop: the survivors are exactly the names passing the
substring filter and the hook, in order, and the hook is invoked exactly on
the names passing the substring filter, in order. -/
theorem groupsLoop_eq (prompt : String → String → Bool) (filter : String)
    (gs : List String) :
    groupsLoop prompt filter gs =
      ((gs.filter fun n => strContains n filter && prompt "Resource Group" n).map NewGroup,
       (gs.filter fun n => strContains n filter).map fun n => ("Resource Group", n)) := by
  induction gs with
  | nil => rfl
  | cons g gs ih =>
    by_cases hc : strContains g filter
    · by_cases hp : prompt "Resource Group" g
      · simp [groupsLoop, NewGroup, hc, hp, ih, List.filter_cons]
      · simp [groupsLoop, NewGroup, hc, hp, ih, List.filter_cons]
    · simp [groupsLoop, NewGroup, hc, ih, List.filter_cons]

/-- Concrete collaborators for witnesses: a client returning three groups and
a hook declining only "albatross". -/
def gWit : Groups :=
  { client := fun _ _ => .ok ⟨some ["alpha", "beta", "albatross"]⟩,
    promptWithDetails := fun _ n => n != "albatross" }

/-- Concrete collaborators: a failing client. -/
def gErrWit : Groups :=
  { client := fun _ _ => .error "kaboom",
    promptWithDetails := fun _ _ => true }

/-- Concrete collaborators: an always-declining hook. -/
def gNoWit : Groups :=
  { client := fun _ _ => .ok ⟨some ["x", "y"]⟩,
    promptWithDetails := fun _ _ => false }

/-- Concrete collaborators: a successful response carrying a nil Value. -/
def gNilWit : Groups :=
  { client := fun _ _ => .ok ⟨none⟩,
    promptWithDetails := fun _ _ => true }

/-- C1: on a successful provider call returning collection gs, Groups.list
returns exactly the items whose name contains the filter and for which the
confirmation hook returned true, in provider order; the hook is invoked
exactly on the names containing the filter (so never on a non-matching
name). -/
theorem groups_list_filter_and_confirm (g : Groups) (filter : String)
    (gs : List String) (h : g.client "" none = .ok ⟨some gs⟩) :
    Groups.list g filter =
      some (.ok ((gs.filter fun n =>
              strContains n filter && g.promptWithDetails "Resource Group" n).map NewGroup),
            (gs.filter fun n => strContains n filter).map fun n => ("Resource Group", n)) ∧
    ∀ res tr, Groups.list g filter = some (res, tr) →
      ∀ c ∈ tr, strContains c.2 filter = true := by
  have hmain : Groups.list g filter =
      some (.ok ((gs.filter fun n =>
              strContains n filter && g.promptWithDetails "Resource Group" n).map NewGroup),
            (gs.filter fun n => strContains n filter).map fun n => ("Resource Group", n)) := by
    unfold Groups.list
    rw [h]
    simp [groupsLoop_eq]
  refine ⟨hmain, ?_⟩
  intro res tr heq c hc
  rw [hmain] at heq
  have htr : tr = (gs.filter fun n => strContains n filter).map
      fun n => (("Resource Group" : String), n) := by
    injection heq with h1
    exact (congrArg Prod.snd h1).symm
  rw [htr] at hc
  rcases List.mem_map.mp hc with ⟨n, hn, rfl⟩
  exact (List.mem_filter.mp hn).2

/-- C1 witness: at a concrete client, filter "al" keeps "alpha" (confirmed)
and drops "albatross" (declined), never prompting for "beta". -/
theorem groups_list_filter_and_confirm_witness :
    Groups.list gWit "al" =
      some (.ok ((["alpha", "beta", "albatross"].filter fun n =>
              strContains n "al" && gWit.promptWithDetails "Resource Group" n).map NewGroup),
            (["alpha", "beta", "albatross"].filter fun n => strContains n "al").map
              fun n => ("Resource Group", n)) :=
  (groups_list_filter_and_confirm gWit "al" ["alpha", "beta", "albatross"] rfl).1

/-- C7: when the provider call (made with the empty query and no page cap)
fails with e, Groups.list returns no resources and the wrapped listing
error, with the confirmation hook never invoked (empty prompt trace);
moreover the result depends on the client only through its value at the
empty query and absent page cap. -/
theorem groups_list_listing_error (g : Groups) (filter e : String)
    (h : g.client "" none = .error e) :
    Groups.list g filter = some (.error ("Listing Resource Groups: " ++ e), []) ∧
    ∀ g2 : Groups, g2.client "" none = g.client "" none →
      g2.promptWithDetails = g.promptWithDetails →
      Groups.list g2 filter = Groups.list g filter := by
  constructor
  · unfold Groups.list
    rw [h]
  · intro g2 hc hp
    unfold Groups.list
    rw [hc, hp]

/-- C7 witness: a concretely failing client yields the wrapped error and an
empty prompt trace. -/
theorem groups_list_listing_error_witness :
    Groups.list gErrWit "f" =
      some (.error ("Listing Resource Groups: " ++ "kaboom"), []) :=
  (groups_list_listing_error gErrWit "f" "kaboom" rfl).1

/-- C8: if the hook declines every item, or no returned name contains the
filter, Groups.list returns an empty sequence and no error. -/
theorem groups_list_empty_ok (g : Groups) (filter : String) (gs : List String)
    (h : g.client "" none = .ok ⟨some gs⟩)
    (hp : (∀ t n, g.promptWithDetails t n = false) ∨
          (∀ n ∈ gs, strContains n filter = false)) :
    (Groups.list g filter).map Prod.fst = some (.ok []) := by
  unfold Groups.list
  rw [h]
  simp only [groupsLoop_eq]
  have hnil : (gs.filter fun n =>
      strContains n filter && g.promptWithDetails "Resource Group" n) = [] := by
    rw [List.filter_eq_nil_iff]
    intro n hn
    rcases hp with hp | hp
    · simp [hp]
    · simp [hp n hn]
  simp [hnil]

/-- C8 witness: with an always-declining hook and two groups, the listing is
empty and successful. -/
theorem groups_list_empty_ok_witness :
    (Groups.list gNoWit "x").map Prod.fst = some (.ok []) :=
  groups_list_empty_ok gNoWit "x" ["x", "y"] rfl (Or.inl fun _ _ => rfl)

/-- C9: Groups.list is undefined (the Go code panics dereferencing
groups.Value) exactly when the client call succeeds with a nil Value; for
every other client outcome the call is defined. -/
theorem groups_list_nil_value_panic (g : Groups) (filter : String) :
    Groups.list g filter = none ↔ g.client "" none = .ok ⟨none⟩ := by
  unfold Groups.list
  cases h : g.client "" none with
  | error e => simp
  | ok r =>
    obtain ⟨v⟩ := r
    cases v with
    | none => simp
    | some gs => simp

/-- C9 witness: a successful response with nil Value makes the call
undefined. -/
theorem groups_list_nil_value_panic_witness :
    Groups.list gNilWit "f" = none :=
  (groups_list_nil_value_panic gNilWit "f").mpr rfl

/-- storage.BOSH: the director credential fields read by PrintEnv. -/
structure BOSH where
  directorUsername : String
  directorPassword : String
  directorAddress : String
  directorSSLCA : String
deriving Repr, DecidableEq

/-- storage.Jumpbox: the jumpbox descriptor read by PrintEnv. -/
structure Jumpbox where
  url : String
deriving Repr, DecidableEq

/-- storage.State: the slice of the persisted deployment state PrintEnv
reads. -/
structure State where
  noDirector : Bool
  bosh : BOSH
  jumpbox : Jumpbox
deriving Repr, DecidableEq

/-- Lookup of a string value in the terraform outputs map (the map from
string keys to values), yielding the empty string when absent. -/
def outputsGetString (m : List (String × String)) (k : String) : String :=
  match m.find? (fun p => p.1 == k) with
  | some p => p.2
  | none => ""

/-- The injected collaborators of PrintEnv, each modelled by the value its
single relevant call returns: the terraform manager's GetOutputs, the
credhub getter's GetServer/GetCerts/GetPassword, the ssh key getter's Get
(by deployment name), and the file IO's TempDir and WriteFile. -/
structure PrintEnv where
  getOutputs : Except String (List (String × String))
  getServer : Except String String
  getCerts : Except String String
  getPassword : Except String String
  sshKeyGet : String → Except String String
  tempDir : Except String String
  writeFile : String → String → Except String Unit

/-- A record of one collaborator invocation made during Execute. -/
inductive Call where
  | getOutputs : Call
  | getServer : Call
  | getCerts : Call
  | getPassword : Call
  | sshKeyGet : String → Call
  | tempDir : Call
  | writeFile : String → String → Call
deriving Repr, DecidableEq

/-- The observable outcome of Execute: the stdout lines printed through the
primary logger, the warning lines printed through the secondary (stderr)
logger, the trace of collaborator invocations, and the returned error if
any. -/
structure ExecResult where
  out : List String
  errOut : List String
  calls : List Call
  err : Option String
deriving Repr, DecidableEq

/-- One optional credhub lookup: on success the export line is the prefix,
the value, and the suffix; on failure the fixed warning goes to stderr and
the export line is omitted. -/
def credhubStep (r : Except String String) (pre suf warn : String) :
    List String × List String :=
  match r with
  | .ok v => ([pre ++ v ++ suf], [])
  | .error _ => ([], [warn])

/-- The four director export lines printed from the state's director
fields. -/
def dirLines (s : State) : List String :=
  ["export BOSH_CLIENT=" ++ s.bosh.directorUsername,
   "export BOSH_CLIENT_SECRET=" ++ s.bosh.directorPassword,
   "export BOSH_CA_CERT='" ++ s.bosh.directorSSLCA ++ "'",
   "export BOSH_ENVIRONMENT=" ++ s.bosh.directorAddress]

/-- The credhub export lines (first component) and warning lines (second
component) produced by the three optional credhub lookups, including the
constant CREDHUB_USER line. -/
def credhubParts (p : PrintEnv) : List String × List String :=
  let server := credhubStep p.getServer "export CREDHUB_SERVER=" ""
    "No credhub server found."
  let certs := credhubStep p.getCerts "export CREDHUB_CA_CERT='" "'"
    "No credhub certs found."
  let password := credhubStep p.getPassword "export CREDHUB_PASSWORD=" ""
    "No credhub password found."
  (server.1 ++ certs.1 ++ ["export CREDHUB_USER=credhub-cli"] ++ password.1,
   server.2 ++ certs.2 ++ password.2)

/-- The BOSH_ALL_PROXY export line built from the jumpbox URL in state. -/
def proxyLine (s : State) : String :=
  "export BOSH_ALL_PROXY=ssh+socks5://jumpbox@" ++ s.jumpbox.url ++
    "?private-key=$JUMPBOX_PRIVATE_KEY"

/-- Modelled from the spec: PrintEnv.Execute (commands/print_env.go is not
part of the visible source; only its test is). Following the spec's steps
and the lines asserted by print_env_test.go: in NoDirector mode, fetch the
terraform outputs (propagating a fetch error) and print the single
BOSH_ENVIRONMENT line built from external_ip. Otherwise print the four
director export lines from the state, then the credhub lines — server,
certs (single-quoted), the constant CREDHUB_USER=credhub-cli line, and
password — each optional lookup downgrading its failure to a fixed stderr
warning; then fetch the jumpbox private key (fatal on failure), obtain a
temp dir, write the key to <tempdir>/bosh_jumpbox_private.key (fatal on
failure), and print the JUMPBOX_PRIVATE_KEY and BOSH_ALL_PROXY lines. -/
def PrintEnv.Execute (p : PrintEnv) (state : State) : ExecResult :=
  if state.noDirector then
    match p.getOutputs with
    | .error e => { out := [], errOut := [], calls := [Call.getOutputs], err := some e }
    | .ok outs =>
      { out := ["export BOSH_ENVIRONMENT=https://" ++
                outputsGetString outs "external_ip" ++ ":25555"],
        errOut := [], calls := [Call.getOutputs], err := none }
  else
    let credLines := (credhubParts p).1
    let warns := (credhubParts p).2
    let calls0 := [Call.getServer, Call.getCerts, Call.getPassword,
      Call.sshKeyGet "jumpbox"]
    match p.sshKeyGet "jumpbox" with
    | .error e =>
      { out := dirLines state ++ credLines, errOut := warns,
        calls := calls0, err := some e }
    | .ok key =>
      match p.tempDir with
      | .error e =>
        { out := dirLines state ++ credLines, errOut := warns,
          calls := calls0 ++ [Call.tempDir], err := some e }
      | .ok dir =>
        let path := dir ++ "/bosh_jumpbox_private.key"
        match p.writeFile path key with
        | .error e =>
          { out := dirLines state ++ credLines, errOut := warns,
            calls := calls0 ++ [Call.tempDir, Call.writeFile path key],
            err := some e }
        | .ok _ =>
          { out := dirLines state ++ credLines ++
              ["export JUMPBOX_PRIVATE_KEY=" ++ path, proxyLine state],
            errOut := warns,
            calls := calls0 ++ [Call.tempDir, Call.writeFile path key],
            err := none }

/-- toList distributes over string append. -/
theorem strToList_append (s t : String) : (s ++ t).toList = s.toList ++ t.toList :=
  rfl

/-- If the head of a character list already fails to extend to p (checked on
the truncation of p at the head's length), then p is not a prefix of the
head followed by anything. -/
theorem charPrefixOf_append_eq_false (p a rest : List Char)
    (h : charPrefixOf (p.take a.length) a = false) :
    charPrefixOf p (a ++ rest) = false := by
  induction p generalizing a with
  | nil => simp [charPrefixOf, List.take] at h
  | cons x xs ih =>
    cases a with
    | nil => simp [charPrefixOf] at h
    | cons b bs =>
      cases hxb : x == b with
      | false => simp [charPrefixOf, hxb]
      | true =>
        simp only [List.length_cons, List.take_succ_cons, charPrefixOf, hxb,
          Bool.true_and] at h
        simp only [List.cons_append, charPrefixOf, hxb, Bool.true_and]
        exact ih bs h

/-- A line of the form a ++ rest does not start with pfx when a concrete
check on a rules it out. -/
theorem startsWith2_false (a rest pfx : String)
    (h : charPrefixOf (pfx.toList.take a.toList.length) a.toList = false) :
    strStartsWith (a ++ rest) pfx = false := by
  unfold strStartsWith
  rw [strToList_append]
  exact charPrefixOf_append_eq_false _ _ _ h

/-- A line of the form a ++ mid ++ suf does not start with pfx when a
concrete check on a rules it out. -/
theorem startsWith3_false (a mid suf pfx : String)
    (h : charPrefixOf (pfx.toList.take a.toList.length) a.toList = false) :
    strStartsWith (a ++ mid ++ suf) pfx = false := by
  unfold strStartsWith
  rw [strToList_append, strToList_append, List.append_assoc]
  exact charPrefixOf_append_eq_false _ _ _ h

/-- Director-mode shape: whatever the downstream collaborators do, the
stdout of the non-NoDirector path opens with the director lines followed by
the credhub lines, and the warnings are exactly the credhub warnings. -/
theorem execute_director_shape (p : PrintEnv) (s : State)
    (hnd : s.noDirector = false) :
    ∃ tail, (PrintEnv.Execute p s).out = dirLines s ++ (credhubParts p).1 ++ tail ∧
      (PrintEnv.Execute p s).errOut = (credhubParts p).2 := by
  unfold PrintEnv.Execute
  rw [hnd]
  simp only [Bool.false_eq_true, if_false]
  cases hk : p.sshKeyGet "jumpbox" with
  | error e => exact ⟨[], by simp⟩
  | ok key =>
    cases ht : p.tempDir with
    | error e => exact ⟨[], by simp⟩
    | ok dir =>
      cases hw : p.writeFile (dir ++ "/bosh_jumpbox_private.key") key with
      | error e => exact ⟨[], by simp [hw]⟩
      | ok u =>
        exact ⟨["export JUMPBOX_PRIVATE_KEY=" ++ (dir ++ "/bosh_jumpbox_private.key"),
                proxyLine s], by simp [hw]⟩

/-- Shape of the fully successful director path. -/
theorem execute_success_eq (p : PrintEnv) (s : State) (k d : String)
    (hnd : s.noDirector = false)
    (hk : p.sshKeyGet "jumpbox" = .ok k)
    (ht : p.tempDir = .ok d)
    (hw : p.writeFile (d ++ "/bosh_jumpbox_private.key") k = .ok ()) :
    PrintEnv.Execute p s =
      { out := dirLines s ++ (credhubParts p).1 ++
          ["export JUMPBOX_PRIVATE_KEY=" ++ (d ++ "/bosh_jumpbox_private.key"),
           proxyLine s],
        errOut := (credhubParts p).2,
        calls := [Call.getServer, Call.getCerts, Call.getPassword,
          Call.sshKeyGet "jumpbox", Call.tempDir,
          Call.writeFile (d ++ "/bosh_jumpbox_private.key") k],
        err := none } := by
  unfold PrintEnv.Execute
  rw [hnd]
  simp [hk, ht, hw]

/-- Shape of the director path when the ssh key fetch fails. -/
theorem execute_ssh_error_eq (p : PrintEnv) (s : State) (e : String)
    (hnd : s.noDirector = false)
    (hk : p.sshKeyGet "jumpbox" = .error e) :
    PrintEnv.Execute p s =
      { out := dirLines s ++ (credhubParts p).1,
        errOut := (credhubParts p).2,
        calls := [Call.getServer, Call.getCerts, Call.getPassword,
          Call.sshKeyGet "jumpbox"],
        err := some e } := by
  unfold PrintEnv.Execute
  rw [hnd]
  simp [hk]

/-- Shape of the director path when the key-file write fails. -/
theorem execute_write_error_eq (p : PrintEnv) (s : State) (k d e : String)
    (hnd : s.noDirector = false)
    (hk : p.sshKeyGet "jumpbox" = .ok k)
    (ht : p.tempDir = .ok d)
    (hw : p.writeFile (d ++ "/bosh_jumpbox_private.key") k = .error e) :
    PrintEnv.Execute p s =
      { out := dirLines s ++ (credhubParts p).1,
        errOut := (credhubParts p).2,
        calls := [Call.getServer, Call.getCerts, Call.getPassword,
          Call.sshKeyGet "jumpbox", Call.tempDir,
          Call.writeFile (d ++ "/bosh_jumpbox_private.key") k],
        err := some e } := by
  unfold PrintEnv.Execute
  rw [hnd]
  simp [hk, ht, hw]

/-- Concrete collaborators for PrintEnv witnesses: everything succeeds. -/
def pWit : PrintEnv :=
  { getOutputs := .ok [("external_ip", "1.2.3.4")],
    getServer := .ok "chs",
    getCerts := .ok "chc",
    getPassword := .ok "chp",
    sshKeyGet := fun _ => .ok "priv",
    tempDir := .ok "tmp",
    writeFile := fun _ _ => .ok () }

/-- Concrete state with a director configured. -/
def sWit : State :=
  { noDirector := false,
    bosh := { directorUsername := "u", directorPassword := "pw",
              directorAddress := "addr", directorSSLCA := "ca" },
    jumpbox := { url := "jb:22" } }

/-- Concrete state in NoDirector mode. -/
def sNdWit : State :=
  { noDirector := true,
    bosh := { directorUsername := "u", directorPassword := "pw",
              directorAddress := "addr", directorSSLCA := "ca" },
    jumpbox := { url := "jb:22" } }

/-- Concrete collaborators with a failing ssh key getter. -/
def pSshErrWit : PrintEnv :=
  { pWit with sshKeyGet := fun _ => .error "papaya" }

/-- Concrete collaborators with a failing key-file write. -/
def pWriteErrWit : PrintEnv :=
  { pWit with writeFile := fun _ _ => .error "mango" }

/-- Concrete collaborators with a failing credhub server lookup. -/
def pServerErrWit : PrintEnv :=
  { pWit with getServer := .error "starfruit" }

/-- Concrete collaborators with a failing terraform-outputs fetch. -/
def pTfErrWit : PrintEnv :=
  { pWit with getOutputs := .error "failed to get terraform output" }

/-- C2: in NoDirector mode Execute consults the terraform manager exactly
once; a fetch failure is returned as-is with nothing printed; on success it
prints exactly the one BOSH_ENVIRONMENT line built from external_ip, with no
BOSH_CLIENT, BOSH_CLIENT_SECRET or BOSH_CA_CERT line. -/
theorem print_env_no_director (p : PrintEnv) (s : State)
    (h : s.noDirector = true) :
    (PrintEnv.Execute p s).calls = [Call.getOutputs] ∧
    (∀ e, p.getOutputs = .error e → PrintEnv.Execute p s =
      { out := [], errOut := [], calls := [Call.getOutputs], err := some e }) ∧
    (∀ outs, p.getOutputs = .ok outs →
      (PrintEnv.Execute p s).out =
        ["export BOSH_ENVIRONMENT=https://" ++
          outputsGetString outs "external_ip" ++ ":25555"] ∧
      (PrintEnv.Execute p s).err = none ∧
      ∀ l ∈ (PrintEnv.Execute p s).out,
        strStartsWith l "export BOSH_CLIENT=" = false ∧
        strStartsWith l "export BOSH_CLIENT_SECRET=" = false ∧
        strStartsWith l "export BOSH_CA_CERT=" = false) := by
  cases hg : p.getOutputs with
  | error e =>
    have hx : PrintEnv.Execute p s =
        { out := [], errOut := [], calls := [Call.getOutputs], err := some e } := by
      unfold PrintEnv.Execute
      rw [h]
      simp [hg]
    refine ⟨by rw [hx], ?_, ?_⟩
    · intro e2 he2
      injection he2 with he3
      rw [he3] at hx
      exact hx
    · intro outs ho
      exact absurd ho (by simp)
  | ok outs =>
    have hx : PrintEnv.Execute p s =
        { out := ["export BOSH_ENVIRONMENT=https://" ++
            outputsGetString outs "external_ip" ++ ":25555"],
          errOut := [], calls := [Call.getOutputs], err := none } := by
      unfold PrintEnv.Execute
      rw [h]
      simp [hg]
    refine ⟨by rw [hx], ?_, ?_⟩
    · intro e2 he2
      exact absurd he2 (by simp)
    · intro outs2 ho
      injection ho with ho2
      rw [← ho2]
      rw [hx]
      refine ⟨rfl, rfl, ?_⟩
      intro l hl
      rcases List.mem_singleton.mp hl with rfl
      refine ⟨?_, ?_, ?_⟩
      · exact startsWith3_false _ _ _ _ (by decide)
      · exact startsWith3_false _ _ _ _ (by decide)
      · exact startsWith3_false _ _ _ _ (by decide)

/-- C2 witness: at concrete collaborators in NoDirector mode with
external_ip 1.2.3.4, Execute prints exactly the one environment line. -/
theorem print_env_no_director_witness :
    (PrintEnv.Execute pWit sNdWit).out =
      ["export BOSH_ENVIRONMENT=https://" ++
        outputsGetString [("external_ip", "1.2.3.4")] "external_ip" ++ ":25555"] :=
  ((print_env_no_director pWit sNdWit rfl).2.2 [("external_ip", "1.2.3.4")] rfl).1

/-- C3: with a director configured, Execute prints the four director export
lines verbatim from the state's director fields (the CA certificate
single-quoted). -/
theorem print_env_director_exports (p : PrintEnv) (s : State)
    (hnd : s.noDirector = false) :
    ("export BOSH_CLIENT=" ++ s.bosh.directorUsername) ∈ (PrintEnv.Execute p s).out ∧
    ("export BOSH_CLIENT_SECRET=" ++ s.bosh.directorPassword) ∈ (PrintEnv.Execute p s).out ∧
    ("export BOSH_CA_CERT='" ++ s.bosh.directorSSLCA ++ "'") ∈ (PrintEnv.Execute p s).out ∧
    ("export BOSH_ENVIRONMENT=" ++ s.bosh.directorAddress) ∈ (PrintEnv.Execute p s).out := by
  obtain ⟨tail, hout, -⟩ := execute_director_shape p s hnd
  rw [hout]
  simp [dirLines]

/-- C3 witness: the concrete director lines appear in the concrete run. -/
theorem print_env_director_exports_witness :
    ("export BOSH_CLIENT=" ++ "u") ∈ (PrintEnv.Execute pWit sWit).out :=
  (print_env_director_exports pWit sWit rfl).1

/-- C10: in the director path Execute prints the constant line
CREDHUB_USER=credhub-cli, and labels a successful certs lookup
CREDHUB_CA_CERT with the value single-quoted. -/
theorem print_env_credhub_user_constant (p : PrintEnv) (s : State)
    (hnd : s.noDirector = false) :
    "export CREDHUB_USER=credhub-cli" ∈ (PrintEnv.Execute p s).out ∧
    ∀ v, p.getCerts = .ok v →
      ("export CREDHUB_CA_CERT='" ++ v ++ "'") ∈ (PrintEnv.Execute p s).out := by
  obtain ⟨tail, hout, -⟩ := execute_director_shape p s hnd
  constructor
  · rw [hout]
    simp [credhubParts, credhubStep]
  · intro v hv
    rw [hout]
    simp [credhubParts, credhubStep, hv]

/-- C10 witness: the constant CREDHUB_USER line appears in the concrete
run. -/
theorem print_env_credhub_user_constant_witness :
    "export CREDHUB_USER=credhub-cli" ∈ (PrintEnv.Execute pWit sWit).out :=
  (print_env_credhub_user_constant pWit sWit rfl).1

/-- Every line of the director and credhub output block starts with a
director or credhub head, hence never with a jumpbox-related head. -/
theorem dirCred_no_jumpbox_heads (p : PrintEnv) (s : State) :
    ∀ l ∈ dirLines s ++ (credhubParts p).1,
      strStartsWith l "export JUMPBOX_PRIVATE_KEY=" = false ∧
      strStartsWith l "export BOSH_ALL_PROXY=" = false := by
  cases hs : p.getServer <;> cases hc : p.getCerts <;> cases hpw : p.getPassword <;>
    simp only [dirLines, credhubParts, credhubStep, hs, hc, hpw, List.append_assoc,
      List.cons_append, List.nil_append, List.singleton_append, List.forall_mem_cons,
      List.not_mem_nil, false_implies, implies_true, and_true, List.mem_singleton,
      forall_eq, String.append_empty] <;>
    repeat' apply And.intro
  all_goals first
    | decide
    | exact startsWith2_false _ _ _ (by decide)
    | exact startsWith3_false _ _ _ _ (by decide)

/-- C5: a failing ssh key fetch is fatal: Execute returns that error and
emits no JUMPBOX_PRIVATE_KEY and no BOSH_ALL_PROXY line. -/
theorem print_env_ssh_failure_fatal (p : PrintEnv) (s : State) (e : String)
    (hnd : s.noDirector = false)
    (hk : p.sshKeyGet "jumpbox" = .error e) :
    (PrintEnv.Execute p s).err = some e ∧
    ∀ l ∈ (PrintEnv.Execute p s).out,
      strStartsWith l "export JUMPBOX_PRIVATE_KEY=" = false ∧
      strStartsWith l "export BOSH_ALL_PROXY=" = false := by
  rw [execute_ssh_error_eq p s e hnd hk]
  exact ⟨rfl, dirCred_no_jumpbox_heads p s⟩

/-- C5 witness: the concrete failing key getter makes Execute return
"papaya". -/
theorem print_env_ssh_failure_fatal_witness :
    (PrintEnv.Execute pSshErrWit sWit).err = some "papaya" :=
  (print_env_ssh_failure_fatal pSshErrWit sWit "papaya" rfl rfl).1

/-- C6: on the successful path Execute records a write of the fetched key
bytes to <tempdir>/bosh_jumpbox_private.key and prints the
JUMPBOX_PRIVATE_KEY and BOSH_ALL_PROXY lines built from that path and the
jumpbox URL; a failing write aborts Execute with that error. -/
theorem print_env_jumpbox_key_write (p : PrintEnv) (s : State) (k d : String)
    (hnd : s.noDirector = false)
    (hk : p.sshKeyGet "jumpbox" = .ok k)
    (ht : p.tempDir = .ok d) :
    (p.writeFile (d ++ "/bosh_jumpbox_private.key") k = .ok () →
      Call.writeFile (d ++ "/bosh_jumpbox_private.key") k ∈ (PrintEnv.Execute p s).calls ∧
      ("export JUMPBOX_PRIVATE_KEY=" ++ (d ++ "/bosh_jumpbox_private.key"))
        ∈ (PrintEnv.Execute p s).out ∧
      ("export BOSH_ALL_PROXY=ssh+socks5://jumpbox@" ++ s.jumpbox.url ++
        "?private-key=$JUMPBOX_PRIVATE_KEY") ∈ (PrintEnv.Execute p s).out ∧
      (PrintEnv.Execute p s).err = none) ∧
    (∀ e, p.writeFile (d ++ "/bosh_jumpbox_private.key") k = .error e →
      (PrintEnv.Execute p s).err = some e) := by
  constructor
  · intro hw
    rw [execute_success_eq p s k d hnd hk ht hw]
    refine ⟨by simp, by simp, ?_, rfl⟩
    simp [proxyLine]
  · intro e hw
    rw [execute_write_error_eq p s k d e hnd hk ht hw]

/-- C6 witness: the concrete successful run records the key write and prints
the jumpbox lines. -/
theorem print_env_jumpbox_key_write_witness :
    ("export JUMPBOX_PRIVATE_KEY=" ++ ("tmp" ++ "/bosh_jumpbox_private.key"))
      ∈ (PrintEnv.Execute pWit sWit).out ∧
    (PrintEnv.Execute pWit sWit).err = none :=
  ⟨((print_env_jumpbox_key_write pWit sWit "priv" "tmp" rfl rfl rfl).1 rfl).2.1,
   ((print_env_jumpbox_key_write pWit sWit "priv" "tmp" rfl rfl rfl).1 rfl).2.2.2⟩

/-- When the server lookup failed, no line of the full success output starts
with the CREDHUB_SERVER export head. -/
theorem out_no_server_line (p : PrintEnv) (s : State) (path e : String)
    (hs : p.getServer = .error e) :
    ∀ l ∈ dirLines s ++ (credhubParts p).1 ++
        ["export JUMPBOX_PRIVATE_KEY=" ++ path, proxyLine s],
      strStartsWith l "export CREDHUB_SERVER=" = false := by
  cases hc : p.getCerts <;> cases hpw : p.getPassword <;>
    simp only [dirLines, credhubParts, credhubStep, hs, hc, hpw, proxyLine,
      List.append_assoc, List.cons_append, List.nil_append, List.singleton_append,
      List.forall_mem_cons, List.not_mem_nil, false_implies, implies_true, and_true,
      List.mem_singleton, forall_eq, String.append_empty] <;>
    repeat' apply And.intro
  all_goals first
    | decide
    | exact startsWith2_false _ _ _ (by decide)
    | exact startsWith3_false _ _ _ _ (by decide)

/-- When the certs lookup failed, no line of the full success output starts
with the CREDHUB_CA_CERT export head. -/
theorem out_no_certs_line (p : PrintEnv) (s : State) (path e : String)
    (hc : p.getCerts = .error e) :
    ∀ l ∈ dirLines s ++ (credhubParts p).1 ++
        ["export JUMPBOX_PRIVATE_KEY=" ++ path, proxyLine s],
      strStartsWith l "export CREDHUB_CA_CERT=" = false := by
  cases hs : p.getServer <;> cases hpw : p.getPassword <;>
    simp only [dirLines, credhubParts, credhubStep, hs, hc, hpw, proxyLine,
      List.append_assoc, List.cons_append, List.nil_append, List.singleton_append,
      List.forall_mem_cons, List.not_mem_nil, false_implies, implies_true, and_true,
      List.mem_singleton, forall_eq, String.append_empty] <;>
    repeat' apply And.intro
  all_goals first
    | decide
    | exact startsWith2_false _ _ _ (by decide)
    | exact startsWith3_false _ _ _ _ (by decide)

/-- When the password lookup failed, no line of the full success output
starts with the CREDHUB_PASSWORD export head. -/
theorem out_no_password_line (p : PrintEnv) (s : State) (path e : String)
    (hpw : p.getPassword = .error e) :
    ∀ l ∈ dirLines s ++ (credhubParts p).1 ++
        ["export JUMPBOX_PRIVATE_KEY=" ++ path, proxyLine s],
      strStartsWith l "export CREDHUB_PASSWORD=" = false := by
  cases hs : p.getServer <;> cases hc : p.getCerts <;>
    simp only [dirLines, credhubParts, credhubStep, hs, hc, hpw, proxyLine,
      List.append_assoc, List.cons_append, List.nil_append, List.singleton_append,
      List.forall_mem_cons, List.not_mem_nil, false_implies, implies_true, and_true,
      List.mem_singleton, forall_eq, String.append_empty] <;>
    repeat' apply And.intro
  all_goals first
    | decide
    | exact startsWith2_false _ _ _ (by decide)
    | exact startsWith3_false _ _ _ _ (by decide)

/-- Membership facts about the fully successful director path: the jumpbox
lines and the constant CREDHUB_USER line always appear; each successful
credhub lookup contributes its export line; each failed credhub lookup
contributes its fixed warning to stderr. -/
theorem execute_success_mem (p : PrintEnv) (s : State) (k d : String)
    (hnd : s.noDirector = false)
    (hk : p.sshKeyGet "jumpbox" = .ok k)
    (ht : p.tempDir = .ok d)
    (hw : p.writeFile (d ++ "/bosh_jumpbox_private.key") k = .ok ()) :
    ("export JUMPBOX_PRIVATE_KEY=" ++ (d ++ "/bosh_jumpbox_private.key"))
      ∈ (PrintEnv.Execute p s).out ∧
    proxyLine s ∈ (PrintEnv.Execute p s).out ∧
    "export CREDHUB_USER=credhub-cli" ∈ (PrintEnv.Execute p s).out ∧
    (∀ v, p.getServer = .ok v →
      ("export CREDHUB_SERVER=" ++ v) ∈ (PrintEnv.Execute p s).out) ∧
    (∀ v, p.getCerts = .ok v →
      ("export CREDHUB_CA_CERT='" ++ v ++ "'") ∈ (PrintEnv.Execute p s).out) ∧
    (∀ v, p.getPassword = .ok v →
      ("export CREDHUB_PASSWORD=" ++ v) ∈ (PrintEnv.Execute p s).out) ∧
    (∀ e, p.getServer = .error e →
      "No credhub server found." ∈ (PrintEnv.Execute p s).errOut) ∧
    (∀ e, p.getCerts = .error e →
      "No credhub certs found." ∈ (PrintEnv.Execute p s).errOut) ∧
    (∀ e, p.getPassword = .error e →
      "No credhub password found." ∈ (PrintEnv.Execute p s).errOut) := by
  rw [execute_success_eq p s k d hnd hk ht hw]
  refine ⟨by simp, by simp, by simp [credhubParts, credhubStep], ?_, ?_, ?_, ?_, ?_, ?_⟩
  · intro v hv
    simp [credhubParts, credhubStep, hv, String.append_empty]
  · intro v hv
    simp [credhubParts, credhubStep, hv]
  · intro v hv
    simp [credhubParts, credhubStep, hv, String.append_empty]
  · intro e he
    simp [credhubParts, credhubStep, he]
  · intro e he
    simp [credhubParts, credhubStep, he]
  · intro e he
    simp [credhubParts, credhubStep, he]

/-- C4: each credhub lookup failure, independently, is non-fatal: Execute
returns no error, writes the lookup's fixed warning to the stderr logger,
omits that lookup's export line, and still emits the jumpbox lines, the
constant CREDHUB_USER line, and the export lines of the other lookups that
succeeded. -/
theorem print_env_credhub_failures_isolated (p : PrintEnv) (s : State)
    (k d : String)
    (hnd : s.noDirector = false)
    (hk : p.sshKeyGet "jumpbox" = .ok k)
    (ht : p.tempDir = .ok d)
    (hw : p.writeFile (d ++ "/bosh_jumpbox_private.key") k = .ok ()) :
    (∀ e, p.getServer = .error e →
      (PrintEnv.Execute p s).err = none ∧
      "No credhub server found." ∈ (PrintEnv.Execute p s).errOut ∧
      (∀ l ∈ (PrintEnv.Execute p s).out,
        strStartsWith l "export CREDHUB_SERVER=" = false) ∧
      ("export JUMPBOX_PRIVATE_KEY=" ++ (d ++ "/bosh_jumpbox_private.key"))
        ∈ (PrintEnv.Execute p s).out ∧
      proxyLine s ∈ (PrintEnv.Execute p s).out ∧
      "export CREDHUB_USER=credhub-cli" ∈ (PrintEnv.Execute p s).out ∧
      (∀ v, p.getCerts = .ok v →
        ("export CREDHUB_CA_CERT='" ++ v ++ "'") ∈ (PrintEnv.Execute p s).out) ∧
      (∀ v, p.getPassword = .ok v →
        ("export CREDHUB_PASSWORD=" ++ v) ∈ (PrintEnv.Execute p s).out)) ∧
    (∀ e, p.getCerts = .error e →
      (PrintEnv.Execute p s).err = none ∧
      "No credhub certs found." ∈ (PrintEnv.Execute p s).errOut ∧
      (∀ l ∈ (PrintEnv.Execute p s).out,
        strStartsWith l "export CREDHUB_CA_CERT=" = false) ∧
      ("export JUMPBOX_PRIVATE_KEY=" ++ (d ++ "/bosh_jumpbox_private.key"))
        ∈ (PrintEnv.Execute p s).out ∧
      proxyLine s ∈ (PrintEnv.Execute p s).out ∧
      "export CREDHUB_USER=credhub-cli" ∈ (PrintEnv.Execute p s).out ∧
      (∀ v, p.getServer = .ok v →
        ("export CREDHUB_SERVER=" ++ v) ∈ (PrintEnv.Execute p s).out) ∧
      (∀ v, p.getPassword = .ok v →
        ("export CREDHUB_PASSWORD=" ++ v) ∈ (PrintEnv.Execute p s).out)) ∧
    (∀ e, p.getPassword = .error e →
      (PrintEnv.Execute p s).err = none ∧
      "No credhub password found." ∈ (PrintEnv.Execute p s).errOut ∧
      (∀ l ∈ (PrintEnv.Execute p s).out,
        strStartsWith l "export CREDHUB_PASSWORD=" = false) ∧
      ("export JUMPBOX_PRIVATE_KEY=" ++ (d ++ "/bosh_jumpbox_private.key"))
        ∈ (PrintEnv.Execute p s).out ∧
      proxyLine s ∈ (PrintEnv.Execute p s).out ∧
      "export CREDHUB_USER=credhub-cli" ∈ (PrintEnv.Execute p s).out ∧
      (∀ v, p.getServer = .ok v →
        ("export CREDHUB_SERVER=" ++ v) ∈ (PrintEnv.Execute p s).out) ∧
      (∀ v, p.getCerts = .ok v →
        ("export CREDHUB_CA_CERT='" ++ v ++ "'") ∈ (PrintEnv.Execute p s).out)) := by
  obtain ⟨hjpk, hproxy, huser, hsok, hcok, hpwok, hserr, hcerr, hpwerr⟩ :=
    execute_success_mem p s k d hnd hk ht hw
  have herr : (PrintEnv.Execute p s).err = none := by
    rw [execute_success_eq p s k d hnd hk ht hw]
  have hout : (PrintEnv.Execute p s).out =
      dirLines s ++ (credhubParts p).1 ++
        ["export JUMPBOX_PRIVATE_KEY=" ++ (d ++ "/bosh_jumpbox_private.key"),
         proxyLine s] := by
    rw [execute_success_eq p s k d hnd hk ht hw]
  refine ⟨?_, ?_, ?_⟩
  · intro e he
    refine ⟨herr, hserr e he, ?_, hjpk, hproxy, huser, hcok, hpwok⟩
    rw [hout]
    exact out_no_server_line p s _ e he
  · intro e he
    refine ⟨herr, hcerr e he, ?_, hjpk, hproxy, huser, hsok, hpwok⟩
    rw [hout]
    exact out_no_certs_line p s _ e he
  · intro e he
    refine ⟨herr, hpwerr e he, ?_, hjpk, hproxy, huser, hsok, hcok⟩
    rw [hout]
    exact out_no_password_line p s _ e he

/-- C4 witness: with the concrete failing server lookup, Execute succeeds,
warns on stderr, and still prints the jumpbox private key line. -/
theorem print_env_credhub_failures_isolated_witness :
    (PrintEnv.Execute pServerErrWit sWit).err = none ∧
    "No credhub server found." ∈ (PrintEnv.Execute pServerErrWit sWit).errOut ∧
    ("export JUMPBOX_PRIVATE_KEY=" ++ ("tmp" ++ "/bosh_jumpbox_private.key"))
      ∈ (PrintEnv.Execute pServerErrWit sWit).out :=
  ⟨((print_env_credhub_failures_isolated pServerErrWit sWit "priv" "tmp"
      rfl rfl rfl rfl).1 "starfruit" rfl).1,
   ((print_env_credhub_failures_isolated pServerErrWit sWit "priv" "tmp"
      rfl rfl rfl rfl).1 "starfruit" rfl).2.1,
   ((print_env_credhub_failures_isolated pServerErrWit sWit "priv" "tmp"
      rfl rfl rfl rfl).1 "starfruit" rfl).2.2.2.1⟩
